import Mathlib

/-!
# Verification of the hand-shadow puppet gesture pipeline (src/script.js)

Shallow embedding of the gesture classification and temporal-stabilization
core of `script.js`: the feature extractor (`getFingersState`,
`getThumbIndexDistance`, `isHandPointingDown`, `getPalmOrientation`,
`getHandShape`), the classifier (`recognizeGesture`), the gesture-to-asset
table (`GESTURES`), and the per-frame stabilizer / presentation state
machine (`handleGestureDetected`, `handleNoGesture`).

Numeric modelling: MediaPipe landmark coordinates are normalized reals;
we embed them as rationals (`ℚ`) so every comparison is exact and
decidable.  The source computes Euclidean distances with `Math.sqrt` and
compares them to a threshold; since both sides are nonnegative,
`sqrt d < c ↔ d < c ^ 2`, so we embed each distance comparison as the
equivalent comparison of the squared distance against the squared
threshold, staying inside `ℚ`.
-/

namespace HandShadow

/-- A normalized 2-D landmark point (the source ignores `z`). -/
structure Pt where
  x : ℚ
  y : ℚ
deriving DecidableEq, Repr

/-- The 21-point MediaPipe hand landmark set (`landmarks[0..20]`). -/
def Landmarks := Fin 21 → Pt

/-- The handedness label delivered with the landmarks (`'Left'` / `'Right'`). -/
inductive Handedness
  | left
  | right
deriving DecidableEq, Repr

/-- The four recognized gesture labels of the `GESTURES` table. -/
inductive Gesture
  | wolf
  | butterfly
  | rabbit
  | elephant
deriving DecidableEq, Repr

/-- The finger-extension flags returned by `getFingersState`. -/
structure Fingers where
  thumb : Bool
  index : Bool
  middle : Bool
  ring : Bool
  pinky : Bool
deriving DecidableEq, Repr

/-- The constant `buffer = 0.05` in `getFingersState` (the leniency buffer). -/
def buffer : ℚ := 5 / 100

/-- Embeds `getFingersState` (script.js:166-182): a finger counts as extended when
its tip's y lies above (is smaller than) its middle joint's y plus the
leniency buffer. -/
def getFingersState (landmarks : Landmarks) : Fingers where
  thumb := decide ((landmarks 4).y < (landmarks 3).y + buffer)
  index := decide ((landmarks 8).y < (landmarks 6).y + buffer)
  middle := decide ((landmarks 12).y < (landmarks 10).y + buffer)
  ring := decide ((landmarks 16).y < (landmarks 14).y + buffer)
  pinky := decide ((landmarks 20).y < (landmarks 18).y + buffer)

/-- Embeds `getPalmOrientation` (script.js:185-193): the (dx, dy) vector from the
wrist (landmark 0) to the middle-finger MCP (landmark 9). -/
def getPalmOrientation (landmarks : Landmarks) : ℚ × ℚ :=
  ((landmarks 9).x - (landmarks 0).x, (landmarks 9).y - (landmarks 0).y)

/-- The source's `getHandShape` (script.js:196-206) computes the wrist-to-middle-tip
palm length with `Math.sqrt`; we embed its square (sufficient because the
value is never compared or used by the classifier). -/
def getHandShapeSq (landmarks : Landmarks) : ℚ :=
  ((landmarks 12).x - (landmarks 0).x) ^ 2 + ((landmarks 12).y - (landmarks 0).y) ^ 2

/-- The source's `getThumbIndexDistance` (script.js:222-232) computes the Euclidean
distance between thumb tip (4) and index tip (8); we embed its square. -/
def thumbIndexDistanceSq (landmarks : Landmarks) : ℚ :=
  ((landmarks 4).x - (landmarks 8).x) ^ 2 + ((landmarks 4).y - (landmarks 8).y) ^ 2

/-- The pinch threshold `0.08` of script.js:147. -/
def PINCH_THRESHOLD : ℚ := 8 / 100

/-- Embeds `isHandPointingDown` (script.js:235-243): the middle fingertip's y
exceeds the wrist's y by more than `0.05`. -/
def isHandPointingDown (landmarks : Landmarks) : Bool :=
  decide ((landmarks 0).y + 5 / 100 < (landmarks 12).y)

/-- Embeds `recognizeGesture` (script.js:134-163).  The `handedness` argument is
accepted but never read; `palmOrientation` and `handShape` are computed
and never read, exactly as in the source.  `distance < 0.08` is embedded
as `distanceSq < 0.08 ^ 2` (see the header note). -/
def recognizeGesture (landmarks : Landmarks) (handedness : Handedness) :
    Option Gesture :=
  let fingers := getFingersState landmarks
  let _palmOrientation := getPalmOrientation landmarks
  let _handShapeSq := getHandShapeSq landmarks
  let _hd := handedness
  if fingers.index && fingers.middle then
    some Gesture.rabbit
  else if thumbIndexDistanceSq landmarks < PINCH_THRESHOLD ^ 2 then
    some Gesture.wolf
  else if isHandPointingDown landmarks then
    some Gesture.elephant
  else if fingers.thumb && fingers.index && fingers.middle && fingers.ring
      && fingers.pinky then
    some Gesture.butterfly
  else
    none

/-- A landmark set with every point at the origin: index and middle count
as extended and the thumb-index distance is zero. -/
def lmZero : Landmarks := fun _ => ⟨0, 0⟩

/-- Variant of `lmZero` with landmark 9 (middle MCP) moved in x: identical to
`lmZero` on every feature the classifier reads, but with a different palm
orientation. -/
def lmNine : Landmarks := fun i => if i = 9 then ⟨1, 0⟩ else ⟨0, 0⟩

/-! ## Gesture-to-asset table (`GESTURES`, script.js:22-43) -/

/-- One entry of the `GESTURES` table: a static image, an animation video,
and the (always-false) CSS-animation flag. -/
structure GestureAsset where
  image : String
  video : String
  cssAnimation : Bool
deriving DecidableEq, Repr

/-- The property name a `Gesture` label carries in the `GESTURES` object. -/
def labelStr : Gesture → String
  | Gesture.wolf => "wolf"
  | Gesture.butterfly => "butterfly"
  | Gesture.rabbit => "rabbit"
  | Gesture.elephant => "elephant"

/-- The `GESTURES` object literal (script.js:22-43), embedded as an
association list of (property name, asset) pairs in source order. -/
def GESTURES : List (String × GestureAsset) :=
  [("wolf", ⟨"ixp gestures/wolf1.PNG", "ixp gestures/wolf move.mp4", false⟩),
   ("butterfly",
    ⟨"ixp gestures/butterfly1.PNG", "ixp gestures/butterfly move.mp4", false⟩),
   ("rabbit", ⟨"ixp gestures/rabbit1.PNG", "ixp gestures/rabbit move.mp4", false⟩),
   ("elephant",
    ⟨"ixp gestures/elephant1.PNG", "ixp gestures/elephant move.mp4", false⟩)]

/-- Property access `table[labelStr g]` on an asset table. -/
def lookupGesture (table : List (String × GestureAsset)) (g : Gesture) :
    Option GestureAsset :=
  (table.find? fun p => p.1 == labelStr g).map Prod.snd

/-- The source's `init` (script.js:345-348) starts the camera and the frame loop and
performs no check of the `GESTURES` table, so startup accepts any table:
there is no configuration-validation step before frames are processed. -/
def initValidatesTable (_table : List (String × GestureAsset)) : Bool := true

/-- The per-frame asset access of `showPuppetImage` (script.js:302,
`GESTURES[gesture].image`); `none` models the runtime `TypeError` raised
when the entry is missing. -/
def showPuppetImageSrc (table : List (String × GestureAsset)) (g : Gesture) :
    Option String :=
  (lookupGesture table g).map GestureAsset.image

/-- A hypothetical misconfigured table: `GESTURES` without its wolf entry. -/
def tableMissingWolf : List (String × GestureAsset) :=
  GESTURES.filter fun p => p.1 != "wolf"

/-! ## Stabilizer and presentation state (script.js:10-19, 246-292) -/

/-- The module-scope mutable state of script.js: `currentGesture`,
`gestureHoldStart`, `isAnimationPlaying` (lines 11-13) and the smoothing
state `lastDetectedGesture`, `gestureConfirmCount` (lines 17-18).
Timestamps (`Date.now()`) are integers in milliseconds. -/
structure AppState where
  currentGesture : Option Gesture
  gestureHoldStart : Option ℤ
  isAnimationPlaying : Bool
  lastDetectedGesture : Option Gesture
  gestureConfirmCount : ℕ
deriving DecidableEq, Repr

/-- The initial values of the module-scope variables. -/
def initialState : AppState :=
  { currentGesture := none
    gestureHoldStart := none
    isAnimationPlaying := false
    lastDetectedGesture := none
    gestureConfirmCount := 0 }

/-- The constant `HOLD_DURATION = 2000` (script.js:14). -/
def HOLD_DURATION : ℤ := 2000

/-- The renderer command set: `showPuppetImage`, `playPuppetAnimation`,
`hidePuppet` as observed by the display layer. -/
inductive Cmd
  | showStatic (g : Gesture)
  | playAnimation (g : Gesture)
  | hidePuppet
deriving DecidableEq, Repr

/-- Embeds `handleGestureDetected` (script.js:246-277), parameterized by the
configured `CONFIRMATION_FRAMES` value `cfg` (script.js:19 fixes it to 1)
and the current `Date.now()` value `now`.  Returns the updated state and
the renderer commands emitted during the call.  Note `Date.now() - null`
evaluates to `Date.now()` in JS, hence `getD 0` for the hold start. -/
def handleGestureDetected (cfg : ℕ) (now : ℤ) (gesture : Gesture)
    (s : AppState) : AppState × List Cmd :=
  if some gesture ≠ s.lastDetectedGesture then
    ({ s with lastDetectedGesture := some gesture, gestureConfirmCount := 1 }, [])
  else
    let cnt := s.gestureConfirmCount + 1
    if cnt < cfg then
      ({ s with gestureConfirmCount := cnt }, [])
    else
      let s1 : AppState := { s with gestureConfirmCount := cnt }
      if some gesture ≠ s1.currentGesture then
        ({ s1 with
            currentGesture := some gesture
            gestureHoldStart := some now
            isAnimationPlaying := false },
         [Cmd.showStatic gesture])
      else
        let holdTime := now - s1.gestureHoldStart.getD 0
        if HOLD_DURATION < holdTime ∧ s1.isAnimationPlaying = false then
          ({ s1 with isAnimationPlaying := true }, [Cmd.playAnimation gesture])
        else
          (s1, [])

/-- Embeds `handleNoGesture` (script.js:280-292): reset the smoothing state, and
hide the puppet only if a gesture was showing. -/
def handleNoGesture (s : AppState) : AppState × List Cmd :=
  let s1 : AppState :=
    { s with lastDetectedGesture := none, gestureConfirmCount := 0 }
  if s1.currentGesture ≠ none then
    ({ s1 with
        currentGesture := none
        gestureHoldStart := none
        isAnimationPlaying := false },
     [Cmd.hidePuppet])
  else
    (s1, [])

/-- One pipeline frame after classification (`onHandResults`,
script.js:112-131): a raw label `some g` goes to `handleGestureDetected`,
and both "no hand" and "no rule matched" go to `handleNoGesture`. -/
def processFrame (cfg : ℕ) (raw : Option Gesture) (now : ℤ) (s : AppState) :
    AppState × List Cmd :=
  match raw with
  | some g => handleGestureDetected cfg now g s
  | none => handleNoGesture s

/-- Run a list of frames `(raw label, timestamp)`, collecting after each
frame the resulting state and the commands that frame emitted. -/
def runTrace (cfg : ℕ) (s : AppState) :
    List (Option Gesture × ℤ) → List (AppState × List Cmd)
  | [] => []
  | f :: rest =>
    let r := processFrame cfg f.1 f.2 s
    r :: runTrace cfg r.1 rest

/-- The state after running a list of frames. -/
def finalState (cfg : ℕ) (s : AppState) :
    List (Option Gesture × ℤ) → AppState
  | [] => s
  | f :: rest => finalState cfg (processFrame cfg f.1 f.2 s).1 rest

/-- The invariant of an uninterrupted hold episode: the stabilizer last
saw `L` and has enough consecutive frames to stay confirmed, the confirmed
gesture is `L`, and the hold timer was started at `T0`. -/
def Holding (cfg : ℕ) (L : Gesture) (T0 : ℤ) (s : AppState) : Prop :=
  s.lastDetectedGesture = some L ∧ s.currentGesture = some L ∧
    s.gestureHoldStart = some T0 ∧ cfg ≤ s.gestureConfirmCount + 1

/-- The raw-label sequence of the spec's end-to-end scenario, with frame
timestamps 0..5 ms (consecutive frames, well inside the hold duration). -/
def seqC4 : List (Option Gesture × ℤ) :=
  [(none, 0), (some Gesture.wolf, 1), (some Gesture.wolf, 2),
   (some Gesture.wolf, 3), (some Gesture.wolf, 4), (none, 5)]

/-- A concrete mid-hold state: elephant confirmed at time 0, animation not
yet played. -/
def stateHolding : AppState :=
  { currentGesture := some Gesture.elephant
    gestureHoldStart := some 0
    isAnimationPlaying := false
    lastDetectedGesture := some Gesture.elephant
    gestureConfirmCount := 3 }

/-- A concrete state showing rabbit (animation already playing) while the
stabilizer has just seen one wolf frame... then more wolf frames arrive:
used to witness the gesture-change transition. -/
def stateRabbitShowing : AppState :=
  { currentGesture := some Gesture.rabbit
    gestureHoldStart := some 0
    isAnimationPlaying := true
    lastDetectedGesture := some Gesture.wolf
    gestureConfirmCount := 5 }

/-! ## Classifier theorems -/

/-- C1: the classifier evaluates its rules in the fixed priority order
two-finger (rabbit), pinch (wolf), downward-point (elephant), open-hand
(butterfly), otherwise none, returning the label of the first rule whose
predicate holds; in particular, when index and middle are extended and
the thumb-index distance is below the pinch threshold, the result is
rabbit, not wolf. -/
theorem recognizeGesture_priority (lm : Landmarks) (hd : Handedness) :
    (recognizeGesture lm hd =
      if (getFingersState lm).index && (getFingersState lm).middle then
        some Gesture.rabbit
      else if thumbIndexDistanceSq lm < PINCH_THRESHOLD ^ 2 then
        some Gesture.wolf
      else if isHandPointingDown lm then
        some Gesture.elephant
      else if (getFingersState lm).thumb && (getFingersState lm).index &&
          (getFingersState lm).middle && (getFingersState lm).ring &&
          (getFingersState lm).pinky then
        some Gesture.butterfly
      else none) ∧
    ((getFingersState lm).index = true → (getFingersState lm).middle = true →
      thumbIndexDistanceSq lm < PINCH_THRESHOLD ^ 2 →
      recognizeGesture lm hd = some Gesture.rabbit) := by
  constructor
  · rfl
  · intro hi hm _
    simp [recognizeGesture, hi, hm]

/-- Witness for C1: with every landmark at the origin, index and middle
are extended, the thumb-index distance is below the pinch threshold, and
the classifier returns rabbit. -/
theorem recognizeGesture_priority_witness :
    (getFingersState lmZero).index = true ∧
    (getFingersState lmZero).middle = true ∧
    thumbIndexDistanceSq lmZero < PINCH_THRESHOLD ^ 2 ∧
    recognizeGesture lmZero Handedness.left = some Gesture.rabbit := by
  have hi : (getFingersState lmZero).index = true := by
    simp [getFingersState, lmZero, buffer]
  have hm : (getFingersState lmZero).middle = true := by
    simp [getFingersState, lmZero, buffer]
  have hp : thumbIndexDistanceSq lmZero < PINCH_THRESHOLD ^ 2 := by
    simp [thumbIndexDistanceSq, lmZero, PINCH_THRESHOLD]
  exact ⟨hi, hm, hp, (recognizeGesture_priority lmZero Handedness.left).2 hi hm hp⟩

/-- C7: each finger-extended flag holds exactly when the tip landmark's
normalized y is smaller than the middle-joint landmark's y plus the
leniency buffer. -/
theorem getFingersState_spec (lm : Landmarks) :
    ((getFingersState lm).thumb = true ↔ (lm 4).y < (lm 3).y + buffer) ∧
    ((getFingersState lm).index = true ↔ (lm 8).y < (lm 6).y + buffer) ∧
    ((getFingersState lm).middle = true ↔ (lm 12).y < (lm 10).y + buffer) ∧
    ((getFingersState lm).ring = true ↔ (lm 16).y < (lm 14).y + buffer) ∧
    ((getFingersState lm).pinky = true ↔ (lm 20).y < (lm 18).y + buffer) := by
  simp [getFingersState]

/-- C10: the returned label is a function of the landmark set alone — it
is unchanged when only the handedness argument differs, and any two
landmark sets agreeing on the features the rules read (finger flags,
thumb-index distance, pointing-down test) classify identically, so the
handedness, palm-orientation and hand-shape values never influence the
result. -/
theorem recognizeGesture_landmarks_only (lm lm' : Landmarks)
    (h1 h2 : Handedness) :
    recognizeGesture lm h1 = recognizeGesture lm h2 ∧
    (getFingersState lm = getFingersState lm' →
      thumbIndexDistanceSq lm = thumbIndexDistanceSq lm' →
      isHandPointingDown lm = isHandPointingDown lm' →
      recognizeGesture lm h1 = recognizeGesture lm' h2) := by
  constructor
  · rfl
  · intro hf hd hp
    simp only [recognizeGesture, hf, hd, hp]

/-- Witness for C10: two landmark sets that differ in palm orientation
(landmark 9 moved) but agree on the read features classify identically
across different handedness values. -/
theorem recognizeGesture_landmarks_only_witness :
    getPalmOrientation lmZero ≠ getPalmOrientation lmNine ∧
    recognizeGesture lmZero Handedness.left =
      recognizeGesture lmNine Handedness.right := by
  constructor
  · simp [getPalmOrientation, lmZero, lmNine, Prod.ext_iff]
  · exact (recognizeGesture_landmarks_only lmZero lmNine Handedness.left
      Handedness.right).2
      (by simp [getFingersState, lmZero, lmNine])
      (by simp [thumbIndexDistanceSq, lmZero, lmNine])
      (by simp [isHandPointingDown, lmZero, lmNine])

/-! ## Asset-table theorems -/

/-- C9 counterexample: a table missing the wolf entry still passes
startup (the source performs no configuration validation before frames
are processed), and the failure instead surfaces at the per-frame asset
access — contradicting the claim that a missing entry fails configuration
validation before any frame is processed rather than at per-frame time. -/
theorem gestures_no_validation_counterexample :
    initValidatesTable tableMissingWolf = true ∧
    showPuppetImageSrc tableMissingWolf Gesture.wolf = none :=
  ⟨rfl, rfl⟩

/-- C9 amended: every enumerated gesture label has exactly one entry in
the shipped `GESTURES` table, carrying one static image and one
animation video; however, the code performs no configuration validation —
startup accepts any table, and a missing entry would fail at per-frame
asset lookup time. -/
theorem gestures_table_complete (g : Gesture) :
    (GESTURES.filter fun p => p.1 == labelStr g).length = 1 ∧
    (lookupGesture GESTURES g).isSome = true ∧
    initValidatesTable tableMissingWolf = true ∧
    showPuppetImageSrc tableMissingWolf Gesture.wolf = none := by
  cases g <;> exact ⟨rfl, rfl, rfl, rfl⟩

/-! ## Stabilizer theorems -/

/-- C2 counterexample: with the confirmation-frame count configured to 1,
a frame whose raw label (wolf) differs from `lastRawLabel` does NOT
confirm the new label on that same frame — the early return leaves the
stabilized value at `none`, contradicting the claimed immediate
confirmation. -/
theorem newLabel_not_immediate_counterexample :
    (processFrame 1 (some Gesture.wolf) 0 initialState).1.currentGesture ≠
      some Gesture.wolf ∧
    (processFrame 1 (some Gesture.wolf) 0 initialState).1.currentGesture =
      none := by
  decide

/-- C2 amended: for every stabilizer state and every configured
confirmation-frame count (including 1), a frame whose raw label differs
from `lastRawLabel` sets `lastRawLabel` to the new label, sets
`consecutiveCount` to 1, retains the previous stabilized value, and emits
no command — there is no immediate-confirmation exception. -/
theorem handleGestureDetected_newLabel (cfg : ℕ) (now : ℤ) (g : Gesture)
    (s : AppState) (h : some g ≠ s.lastDetectedGesture) :
    processFrame cfg (some g) now s =
      ({ s with lastDetectedGesture := some g, gestureConfirmCount := 1 },
       ([] : List Cmd)) := by
  show handleGestureDetected cfg now g s = _
  unfold handleGestureDetected
  rw [if_pos h]

/-- Witness for the amended C2 at the configured value
`CONFIRMATION_FRAMES = 1`. -/
theorem handleGestureDetected_newLabel_witness :
    some Gesture.wolf ≠ initialState.lastDetectedGesture ∧
    processFrame 1 (some Gesture.wolf) 0 initialState =
      ({ initialState with
          lastDetectedGesture := some Gesture.wolf
          gestureConfirmCount := 1 },
       ([] : List Cmd)) :=
  ⟨by decide,
   handleGestureDetected_newLabel 1 0 Gesture.wolf initialState (by decide)⟩

/-- C3: a single raw `none` frame resets the rolling state
(`lastRawLabel`, `consecutiveCount`) and forces the stabilized value to
`none`, for every prior state, every configured confirmation threshold
and every timestamp. -/
theorem handleNoGesture_resets (cfg : ℕ) (now : ℤ) (s : AppState) :
    (processFrame cfg none now s).1.lastDetectedGesture = none ∧
    (processFrame cfg none now s).1.gestureConfirmCount = 0 ∧
    (processFrame cfg none now s).1.currentGesture = none := by
  unfold processFrame handleNoGesture
  dsimp only
  split_ifs with h
  · exact ⟨rfl, rfl, rfl⟩
  · exact ⟨rfl, rfl, not_not.mp h⟩

/-- C4 counterexample: in the scenario [none, wolf, wolf, wolf, wolf,
none] with threshold 3, the full emitted command list is
[showStatic wolf, hidePuppet] — no `hidePuppet` is emitted on the initial
`none` frame (the source only hides when a gesture was showing), so the
claimed command list [hidePuppet, showStatic wolf, hidePuppet] is wrong. -/
theorem scenario_commands_counterexample :
    ((runTrace 3 initialState seqC4).map Prod.snd).flatten =
      [Cmd.showStatic Gesture.wolf, Cmd.hidePuppet] ∧
    ((runTrace 3 initialState seqC4).map Prod.snd).flatten ≠
      [Cmd.hidePuppet, Cmd.showStatic Gesture.wolf, Cmd.hidePuppet] := by
  decide

/-- C4 amended: with threshold 3, the raw sequence [none, wolf, wolf,
wolf, wolf, none] produces the stabilized sequence [none, none, none,
wolf, wolf, none], with per-frame commands: nothing on the initial `none`
frame (no gesture was showing, so the source emits no `hidePuppet`),
`showStatic wolf` on the frame the stabilized value flips to wolf, and
`hidePuppet` on the final `none` frame. -/
theorem scenario_trace :
    (runTrace 3 initialState seqC4).map (fun p => (p.1.currentGesture, p.2)) =
      [(none, []), (none, []), (none, []),
       (some Gesture.wolf, [Cmd.showStatic Gesture.wolf]),
       (some Gesture.wolf, []), (none, [Cmd.hidePuppet])] := by
  decide

/-- A frame whose label matches `lastRawLabel` keeps `lastRawLabel` and
increments `consecutiveCount`, in every branch of
`handleGestureDetected`. -/
theorem handleSame_rolling (cfg : ℕ) (now : ℤ) (g : Gesture) (s : AppState)
    (h : s.lastDetectedGesture = some g) :
    (handleGestureDetected cfg now g s).1.lastDetectedGesture = some g ∧
    (handleGestureDetected cfg now g s).1.gestureConfirmCount =
      s.gestureConfirmCount + 1 := by
  unfold handleGestureDetected
  rw [if_neg (by simp [h])]
  dsimp only
  split_ifs <;> exact ⟨h, rfl⟩

/-- A frame whose label matches `lastRawLabel` confirms it as the
stabilized value as soon as the incremented count reaches the threshold. -/
theorem handleSame_confirms (cfg : ℕ) (now : ℤ) (g : Gesture) (s : AppState)
    (h : s.lastDetectedGesture = some g)
    (hc : cfg ≤ s.gestureConfirmCount + 1) :
    (handleGestureDetected cfg now g s).1.currentGesture = some g := by
  unfold handleGestureDetected
  rw [if_neg (by simp [h])]
  dsimp only
  rw [if_neg (by omega)]
  split_ifs with h1 h2
  · rfl
  · exact (not_not.mp h1).symm
  · exact (not_not.mp h1).symm

/-- Running one or more same-label frames from a state whose
`lastRawLabel` is already that label confirms it as the stabilized value
once the count can reach the threshold. -/
theorem confirmRun (cfg : ℕ) (g : Gesture) :
    ∀ (fs : List (Option Gesture × ℤ)) (s : AppState),
      1 ≤ fs.length → (∀ f ∈ fs, f.1 = some g) →
      s.lastDetectedGesture = some g →
      cfg ≤ s.gestureConfirmCount + fs.length →
      (finalState cfg s fs).currentGesture = some g := by
  intro fs
  induction fs with
  | nil => intro s h; simp at h
  | cons f rest ih =>
    intro s _ hall h hc
    have hf : f.1 = some g := hall f (by simp)
    have hstep : processFrame cfg f.1 f.2 s = handleGestureDetected cfg f.2 g s := by
      rw [hf]
      rfl
    cases rest with
    | nil =>
      simp only [finalState, hstep]
      exact handleSame_confirms cfg f.2 g s h
        (by simp only [List.length_cons, List.length_nil] at hc; omega)
    | cons f2 rest2 =>
      simp only [finalState, hstep]
      have hr := handleSame_rolling cfg f.2 g s h
      refine ih _ (by simp) (fun p hp => hall p (by simp [hp])) hr.1 ?_
      rw [hr.2]
      simp only [List.length_cons] at hc ⊢
      omega

/-- C8 counterexample: with the configured threshold 1, a single wolf
frame (N = 1 ≥ threshold) from the initial state does NOT yield a
stabilized wolf — the first frame with a new label only primes the
counter and returns early, so at least two frames are always needed. -/
theorem stabilizer_single_frame_counterexample :
    (finalState 1 initialState
        [(some Gesture.wolf, 0)]).currentGesture ≠ some Gesture.wolf ∧
    (finalState 1 initialState
        [(some Gesture.wolf, 0)]).currentGesture = none := by
  decide

/-- C8 amended: for every non-none raw label L and every N that is at
least the confirmation threshold AND at least 2, feeding N consecutive
frames of L from any starting state yields a stabilized output of L, and
feeding further frames of L (any larger N) leaves it at L.  (When the
threshold is 1, two frames are needed, not one: the frame on which the
label first differs from `lastRawLabel` never confirms.) -/
theorem stabilizer_idempotent (cfg : ℕ) (g : Gesture) (s : AppState)
    (fs : List (Option Gesture × ℤ)) (hall : ∀ f ∈ fs, f.1 = some g)
    (hlen : 2 ≤ fs.length) (hcfg : cfg ≤ fs.length) :
    (finalState cfg s fs).currentGesture = some g := by
  cases fs with
  | nil => simp at hlen
  | cons f rest =>
    have hf : f.1 = some g := hall f (by simp)
    have hstep : processFrame cfg f.1 f.2 s = handleGestureDetected cfg f.2 g s := by
      rw [hf]
      rfl
    simp only [finalState, hstep]
    simp only [List.length_cons] at hlen hcfg
    by_cases h : some g = s.lastDetectedGesture
    · have hr := handleSame_rolling cfg f.2 g s h.symm
      refine confirmRun cfg g rest _ (by omega)
        (fun p hp => hall p (by simp [hp])) hr.1 ?_
      rw [hr.2]
      omega
    · have hfirst : handleGestureDetected cfg f.2 g s =
          ({ s with lastDetectedGesture := some g, gestureConfirmCount := 1 },
           ([] : List Cmd)) := by
        unfold handleGestureDetected
        rw [if_pos h]
      rw [hfirst]
      exact confirmRun cfg g rest _ (by omega)
        (fun p hp => hall p (by simp [hp])) rfl (by simp; omega)

/-- Witness for the amended C8: threshold 3, three wolf frames from the
initial state stabilize to wolf. -/
theorem stabilizer_idempotent_witness :
    (∀ f ∈ [((some Gesture.wolf : Option Gesture), (0 : ℤ)),
            (some Gesture.wolf, 1), (some Gesture.wolf, 2)],
        f.1 = some Gesture.wolf) ∧
    (finalState 3 initialState
        [(some Gesture.wolf, 0), (some Gesture.wolf, 1),
         (some Gesture.wolf, 2)]).currentGesture = some Gesture.wolf :=
  ⟨by decide,
   stabilizer_idempotent 3 Gesture.wolf initialState
     [(some Gesture.wolf, 0), (some Gesture.wolf, 1), (some Gesture.wolf, 2)]
     (by decide) (by decide) (by decide)⟩

/-- C6: from a state showing a confirmed label L (static or animating),
a confirmed change to a different label `g` resets the hold timer to
`now`, emits `showStatic g`, and re-arms the animation
(`isAnimationPlaying := false`), so that a frame a full hold duration
later fires `playAnimation g` again. -/
theorem gestureChange_resets (cfg : ℕ) (now : ℤ) (g L : Gesture)
    (s : AppState) (hlast : s.lastDetectedGesture = some g)
    (hc : cfg ≤ s.gestureConfirmCount + 1)
    (hcur : s.currentGesture = some L) (hne : g ≠ L) :
    handleGestureDetected cfg now g s =
      ({ s with
          gestureConfirmCount := s.gestureConfirmCount + 1
          currentGesture := some g
          gestureHoldStart := some now
          isAnimationPlaying := false },
       [Cmd.showStatic g]) ∧
    (handleGestureDetected cfg (now + HOLD_DURATION + 1) g
        (handleGestureDetected cfg now g s).1).2 = [Cmd.playAnimation g] := by
  have key : handleGestureDetected cfg now g s =
      ({ s with
          gestureConfirmCount := s.gestureConfirmCount + 1
          currentGesture := some g
          gestureHoldStart := some now
          isAnimationPlaying := false },
       [Cmd.showStatic g]) := by
    unfold handleGestureDetected
    rw [if_neg (by simp [hlast])]
    dsimp only
    rw [if_neg (by omega)]
    rw [if_pos (by simp [hcur]; exact hne)]
  refine ⟨key, ?_⟩
  rw [key]
  unfold handleGestureDetected
  rw [if_neg (by simp [hlast])]
  dsimp only
  rw [if_neg (by omega)]
  rw [if_neg (by simp)]
  rw [if_pos (And.intro (by simp; omega) rfl)]

/-- Witness for C6: from a state showing rabbit (animation already
playing) with a confirmed incoming wolf, the transition resets the timer,
shows the wolf static asset, and re-fires the animation a hold duration
later. -/
theorem gestureChange_resets_witness :
    stateRabbitShowing.lastDetectedGesture = some Gesture.wolf ∧
    stateRabbitShowing.currentGesture = some Gesture.rabbit ∧
    handleGestureDetected 3 100 Gesture.wolf stateRabbitShowing =
      ({ stateRabbitShowing with
          gestureConfirmCount := stateRabbitShowing.gestureConfirmCount + 1
          currentGesture := some Gesture.wolf
          gestureHoldStart := some 100
          isAnimationPlaying := false },
       [Cmd.showStatic Gesture.wolf]) ∧
    (handleGestureDetected 3 (100 + HOLD_DURATION + 1) Gesture.wolf
        (handleGestureDetected 3 100 Gesture.wolf stateRabbitShowing).1).2 =
      [Cmd.playAnimation Gesture.wolf] := by
  have h := gestureChange_resets 3 100 Gesture.wolf Gesture.rabbit
    stateRabbitShowing (by decide) (by decide) (by decide) (by decide)
  exact ⟨by decide, by decide, h.1, h.2⟩

/-! ## Hold-episode (presentation timing) lemmas -/

/-- During a hold, a same-label frame at or before the hold deadline only
increments the count: no command, no phase change. -/
theorem holdStep_static (cfg : ℕ) (L : Gesture) (T0 t : ℤ) (s : AppState)
    (hold : Holding cfg L T0 s) (ht : t ≤ T0 + HOLD_DURATION) :
    handleGestureDetected cfg t L s =
      ({ s with gestureConfirmCount := s.gestureConfirmCount + 1 },
       ([] : List Cmd)) := by
  obtain ⟨h1, h2, h3, h4⟩ := hold
  unfold handleGestureDetected
  rw [if_neg (by simp [h1])]
  dsimp only
  rw [if_neg (by omega)]
  rw [if_neg (by simp [h2])]
  rw [if_neg (by rw [h3]; simp; intro hlt; omega)]

/-- During a hold with the animation not yet played, a same-label frame
strictly past the hold deadline fires the animation exactly here. -/
theorem holdStep_fires (cfg : ℕ) (L : Gesture) (T0 t : ℤ) (s : AppState)
    (hold : Holding cfg L T0 s) (hplay : s.isAnimationPlaying = false)
    (ht : T0 + HOLD_DURATION < t) :
    handleGestureDetected cfg t L s =
      ({ s with
          gestureConfirmCount := s.gestureConfirmCount + 1
          isAnimationPlaying := true },
       [Cmd.playAnimation L]) := by
  obtain ⟨h1, h2, h3, h4⟩ := hold
  unfold handleGestureDetected
  rw [if_neg (by simp [h1])]
  dsimp only
  rw [if_neg (by omega)]
  rw [if_neg (by simp [h2])]
  rw [if_pos (by rw [h3]; simp; exact ⟨by omega, hplay⟩)]

/-- Once the animation has played, further same-label frames emit
nothing, at every timestamp. -/
theorem holdStep_played (cfg : ℕ) (L : Gesture) (T0 t : ℤ) (s : AppState)
    (hold : Holding cfg L T0 s) (hplay : s.isAnimationPlaying = true) :
    handleGestureDetected cfg t L s =
      ({ s with gestureConfirmCount := s.gestureConfirmCount + 1 },
       ([] : List Cmd)) := by
  obtain ⟨h1, h2, h3, h4⟩ := hold
  unfold handleGestureDetected
  rw [if_neg (by simp [h1])]
  dsimp only
  rw [if_neg (by omega)]
  rw [if_neg (by simp [h2])]
  rw [if_neg (by simp [hplay])]

/-- The hold invariant survives a count increment. -/
theorem holding_count (cfg : ℕ) (L : Gesture) (T0 : ℤ) (s : AppState)
    (hold : Holding cfg L T0 s) :
    Holding cfg L T0 { s with gestureConfirmCount := s.gestureConfirmCount + 1 } := by
  obtain ⟨h1, h2, h3, h4⟩ := hold
  exact ⟨h1, h2, h3, by simpa using Nat.le_succ_of_le h4⟩

/-- The hold invariant survives a count increment together with marking
the animation as playing. -/
theorem holding_count_play (cfg : ℕ) (L : Gesture) (T0 : ℤ) (s : AppState)
    (hold : Holding cfg L T0 s) :
    Holding cfg L T0
      { s with gestureConfirmCount := s.gestureConfirmCount + 1
               isAnimationPlaying := true } := by
  obtain ⟨h1, h2, h3, h4⟩ := hold
  exact ⟨h1, h2, h3, by simpa using Nat.le_succ_of_le h4⟩

/-- Unfolding lemma: `processFrame` on a non-none raw label is `handleGestureDetected`. -/
theorem processFrame_some (cfg : ℕ) (g : Gesture) (now : ℤ) (s : AppState) :
    processFrame cfg (some g) now s = handleGestureDetected cfg now g s := rfl

/-- A frame run splits across list append, threading the final state. -/
theorem runTrace_append (cfg : ℕ) :
    ∀ (a b : List (Option Gesture × ℤ)) (s : AppState),
      runTrace cfg s (a ++ b) =
        runTrace cfg s a ++ runTrace cfg (finalState cfg s a) b := by
  intro a
  induction a with
  | nil => intro b s; rfl
  | cons f rest ih =>
    intro b s
    simp only [List.cons_append, runTrace, finalState, List.append_eq]
    rw [ih]

/-- Same-label frames at or before the hold deadline emit nothing, keep
the phase Static (label shown, animation not playing, flag unchanged),
and preserve the hold invariant. -/
theorem holdRun_static (cfg : ℕ) (L : Gesture) (T0 : ℤ) :
    ∀ (ts : List ℤ) (s : AppState), Holding cfg L T0 s →
      (∀ t ∈ ts, t ≤ T0 + HOLD_DURATION) →
      (runTrace cfg s (ts.map fun t => (some L, t))).map Prod.snd =
          ts.map (fun _ => ([] : List Cmd)) ∧
      (∀ p ∈ runTrace cfg s (ts.map fun t => (some L, t)),
          p.1.currentGesture = some L ∧
          p.1.isAnimationPlaying = s.isAnimationPlaying) ∧
      Holding cfg L T0 (finalState cfg s (ts.map fun t => (some L, t))) ∧
      (finalState cfg s (ts.map fun t => (some L, t))).isAnimationPlaying =
        s.isAnimationPlaying := by
  intro ts
  induction ts with
  | nil =>
    intro s hold _
    exact ⟨rfl, by simp [runTrace], hold, rfl⟩
  | cons t rest ih =>
    intro s hold hts
    have hstep := holdStep_static cfg L T0 t s hold (hts t (by simp))
    have hnext := ih { s with gestureConfirmCount := s.gestureConfirmCount + 1 }
      (holding_count cfg L T0 s hold) (fun u hu => hts u (by simp [hu]))
    simp only [List.map_cons, runTrace, processFrame_some, hstep, finalState]
    refine ⟨by simpa using hnext.1, ?_, hnext.2.2⟩
    intro p hp
    rcases List.mem_cons.mp hp with hh | hh
    · subst hh
      exact ⟨hold.2.1, rfl⟩
    · exact hnext.2.1 p hh

/-- Once the animation has played, further same-label frames emit
nothing, at any timestamps. -/
theorem holdRun_played (cfg : ℕ) (L : Gesture) (T0 : ℤ) :
    ∀ (ts : List ℤ) (s : AppState), Holding cfg L T0 s →
      s.isAnimationPlaying = true →
      (runTrace cfg s (ts.map fun t => (some L, t))).map Prod.snd =
        ts.map (fun _ => ([] : List Cmd)) := by
  intro ts
  induction ts with
  | nil => intro s _ _; rfl
  | cons t rest ih =>
    intro s hold hplay
    have hstep := holdStep_played cfg L T0 t s hold hplay
    simp only [List.map_cons, runTrace, processFrame_some, hstep]
    simpa using
      ih { s with gestureConfirmCount := s.gestureConfirmCount + 1 }
        (holding_count cfg L T0 s hold) hplay

/-- C5: while a confirmed label L is held from hold-start T0, every frame
at a time at most T0 + holdDuration shows the Static phase (label L, no
animation) and emits nothing; `playAnimation L` is emitted exactly once,
at the first frame strictly past the hold deadline, and is never
re-emitted on later frames of the same uninterrupted hold. -/
theorem hold_episode (cfg : ℕ) (L : Gesture) (T0 : ℤ) (s : AppState)
    (pre post : List ℤ) (hold : Holding cfg L T0 s)
    (hplay : s.isAnimationPlaying = false)
    (hpre : ∀ t ∈ pre, t ≤ T0 + HOLD_DURATION)
    (hpost : ∀ t ∈ post, T0 + HOLD_DURATION < t) :
    (∀ p ∈ runTrace cfg s (pre.map fun t => (some L, t)),
        p.1.currentGesture = some L ∧ p.1.isAnimationPlaying = false) ∧
    (runTrace cfg s ((pre ++ post).map fun t => (some L, t))).map Prod.snd =
      pre.map (fun _ => ([] : List Cmd)) ++
        (match post with
         | [] => []
         | _ :: rest => [Cmd.playAnimation L] :: rest.map fun _ => ([] : List Cmd)) := by
  have hstat := holdRun_static cfg L T0 pre s hold hpre
  refine ⟨?_, ?_⟩
  · intro p hp
    have hm := hstat.2.1 p hp
    exact ⟨hm.1, by rw [hm.2, hplay]⟩
  · rw [List.map_append, runTrace_append, List.map_append, hstat.1]
    have hold1 := hstat.2.2.1
    have hplay1 : (finalState cfg s
        (pre.map fun t => (some L, t))).isAnimationPlaying = false := by
      rw [hstat.2.2.2, hplay]
    congr 1
    cases post with
    | nil => rfl
    | cons t rest =>
      have hfire := holdStep_fires cfg L T0 t _ hold1 hplay1 (hpost t (by simp))
      simp only [List.map_cons, runTrace, processFrame_some, hfire]
      simpa using holdRun_played cfg L T0 rest _
        (holding_count_play cfg L T0 _ hold1) rfl

/-- Witness for C5: elephant held from T0 = 0 with frames at 500, 1000,
2000 (within the hold) and 2001, 2500 (past it): exactly one
`playAnimation elephant`, at the 2001 ms frame. -/
theorem hold_episode_witness :
    Holding 3 Gesture.elephant 0 stateHolding ∧
    stateHolding.isAnimationPlaying = false ∧
    (runTrace 3 stateHolding
        (([500, 1000, 2000] ++ [2001, 2500]).map
          fun t => ((some Gesture.elephant : Option Gesture), t))).map
        Prod.snd =
      [[], [], [], [Cmd.playAnimation Gesture.elephant], []] := by
  have hold : Holding 3 Gesture.elephant 0 stateHolding :=
    ⟨rfl, rfl, rfl, by decide⟩
  refine ⟨hold, rfl, ?_⟩
  have h := (hold_episode 3 Gesture.elephant 0 stateHolding
    [500, 1000, 2000] [2001, 2500] hold rfl
    (by intro t ht; fin_cases ht <;> decide)
    (by intro t ht; fin_cases ht <;> decide)).2
  simpa using h

end HandShadow
